import Mathlib

/-!
Verification of the dexdogs fidelity pre-rating engine
(`src/streamlit_app.py`) against its natural-language specification.

The core of the program is pure: a scoring function built from additive
integer contributions (with one exact division by 5), a clamp to
`[0, 100]`, and a descending threshold scan producing a rating grade,
a display color and a price.  Numbers are embedded as rationals (`ℚ`);
every quantity the program compares differs from every threshold by at
least `1/5`, so the rational model is observationally faithful to the
Python arithmetic.  Document text is modelled as the lower-cased plain
text the program scans (PDF decoding is outside the core per the spec),
with Python substring containment (`pat in text`) embedded as an
executable infix test on character lists.
-/

namespace Dexdogs

/-- Grades of the nominal rating scale.  The data model of the spec lists
six grades (AAA, AA, A, BBB, BB, D); the code's threshold table produces
only four of them. -/
inductive RatingGrade where
  | AAA
  | AA
  | A
  | BBB
  | BB
  | D
deriving DecidableEq, Repr

/-- Manual-mode data-source selection (the three selectbox options at
`src/streamlit_app.py:47-50`). -/
inductive SourceInput where
  | directSensor
  | metered
  | engineeringEstimates
deriving DecidableEq, Repr

/-- Manual-mode verification-level selection (the three selectbox options
at `src/streamlit_app.py:62-65`). -/
inductive AuditInput where
  | reasonable
  | limited
  | unverified
deriving DecidableEq, Repr

/-- Manual-mode source contribution, from the branch at
`src/streamlit_app.py:51-59`: `"Sensor" in choice → 40`,
`"Metered" in choice → 10`, otherwise `-10`. -/
def score_source : SourceInput → ℚ
  | .directSensor => 40
  | .metered => 10
  | .engineeringEstimates => -10

/-- Manual-mode source label, from the same branch. -/
def source_label : SourceInput → String
  | .directSensor => "A. Direct Sensor (Primary)"
  | .metered => "B. Metered (Hybrid)"
  | .engineeringEstimates => "C. Estimates (Secondary)"

/-- Manual-mode verification contribution, from the branch at
`src/streamlit_app.py:66-74`: `"Reasonable" → 30`, `"Limited" → 15`,
otherwise `-20`. -/
def score_audit : AuditInput → ℚ
  | .reasonable => 30
  | .limited => 15
  | .unverified => -20

/-- Manual-mode verification label, from the same branch. -/
def audit_label : AuditInput → String
  | .reasonable => "L3: Reasonable Assurance"
  | .limited => "L2: Limited Assurance"
  | .unverified => "L1: Unverified"

/-- Manual-mode frequency contribution `score_freq = freq_input / 5`
(`src/streamlit_app.py:78`); the slider yields an integer in `[0, 100]`. -/
def score_freq_manual (freq : ℕ) : ℚ := (freq : ℚ) / 5

/-- Document-mode frequency contribution `score_freq = 5`
(`src/streamlit_app.py:130`). -/
def score_freq_doc : ℚ := 5

/-- The base score constant (`src/streamlit_app.py:138`); the same line
runs for both input modes. -/
def base_score : ℚ := 40

/-- The clamped fidelity score
`min(max(base_score + score_audit + score_source + score_freq, 0), 100)`
(`src/streamlit_app.py:139`); shared by both input modes. -/
def fidelity_score (audit source freq : ℚ) : ℚ :=
  min (max (base_score + audit + source + freq) 0) 100

/-- Result of the rating mapper: grade, display color token, price. -/
structure RatingResult where
  grade : RatingGrade
  color : String
  price : ℚ
deriving DecidableEq, Repr

/-- The descending threshold scan at `src/streamlit_app.py:142-145`:
`≥80 → AAA/$18.50`, `≥60 → A/$14.20`, `≥40 → BBB/$9.00`,
else `D/$2.50`.  The same four-band table runs for both input modes. -/
def rating (fs : ℚ) : RatingResult :=
  if 80 ≤ fs then ⟨.AAA, "#00d4ff", 18.50⟩
  else if 60 ≤ fs then ⟨.A, "#2ecc71", 14.20⟩
  else if 40 ≤ fs then ⟨.BBB, "#f1c40f", 9.00⟩
  else ⟨.D, "#c0392b", 2.50⟩

/-- Whether the character list `pat` occurs contiguously starting at the
head of `text` (helper for Python substring containment). -/
def charsStart : List Char → List Char → Bool
  | [], _ => true
  | _ :: _, [] => false
  | a :: as, b :: bs => (a == b) && charsStart as bs

/-- Whether the character list `pat` occurs contiguously anywhere in
`text` (helper for Python substring containment). -/
def charsContain : List Char → List Char → Bool
  | [], pat => charsStart pat []
  | t@(_ :: ts), pat => charsStart pat t || charsContain ts pat

/-- Python's substring containment `pat in text`. -/
def containsSubstr (text pat : String) : Bool :=
  charsContain text.data pat.data

/-- Project-type detection (`src/streamlit_app.py:95-98`): default
`"General Construction"`, overridden by the first matching keyword rule.
Purely informational, not scored. -/
def detect_project (text : String) : String :=
  if containsSubstr text "concrete" || containsSubstr text "cement" then
    "Concrete / Cement"
  else if containsSubstr text "glass" then "Glass Manufacturing"
  else if containsSubstr text "steel" then "Metals / Steel"
  else "General Construction"

/-- Verification detection (`src/streamlit_app.py:101-109`): label and
contribution per the ordered first-match-wins substring rules. -/
def detect_audit (text : String) : String × ℚ :=
  if containsSubstr text "third party verified" ||
      containsSubstr text "external verification" then
    ("L3: Third-Party Verified (ISO 14025)", 30)
  else if containsSubstr text "iso 14040" || containsSubstr text "iso 14044" then
    ("L2: Self-Declared (ISO Compliant)", 15)
  else
    ("L1: Unverified / Internal Estimate", -20)

/-- Source detection (`src/streamlit_app.py:112-120`): label and
contribution per the ordered first-match-wins substring rules. -/
def detect_source (text : String) : String × ℚ :=
  if containsSubstr text "primary data" || containsSubstr text "site-specific" then
    ("A. Direct Facility Data (Primary)", 40)
  else if containsSubstr text "secondary data" || containsSubstr text "database" then
    ("C. Industry Average (Secondary)", -10)
  else
    ("B. Hybrid / Mixed Data", 10)

/-- The tuple returned by `analyze_epd` (`src/streamlit_app.py:88-122`),
as a named record: project type, verification label and score, source
label and score.  The input is the lower-cased concatenated page text. -/
structure EpdResult where
  p_type : String
  a_lbl : String
  a_scr : ℚ
  s_lbl : String
  s_scr : ℚ
deriving DecidableEq, Repr

/-- `analyze_epd` over the extracted lower-cased text
(`src/streamlit_app.py:88-122`). -/
def analyze_epd (text : String) : EpdResult :=
  ⟨detect_project text,
   (detect_audit text).1, (detect_audit text).2,
   (detect_source text).1, (detect_source text).2⟩

/-- Manual-mode fidelity score: the shared clamp applied to the manual
contributions (`src/streamlit_app.py:40-78,138-139`). -/
def manual_fidelity (src : SourceInput) (aud : AuditInput) (freq : ℕ) : ℚ :=
  fidelity_score (score_audit aud) (score_source src) (score_freq_manual freq)

/-- Document-mode fidelity score: the shared clamp applied to the
extracted contributions and the fixed frequency contribution
(`src/streamlit_app.py:127-139`). -/
def doc_fidelity (text : String) : ℚ :=
  fidelity_score (analyze_epd text).a_scr (analyze_epd text).s_scr score_freq_doc

/-- Ordering index on manual source categories:
EngineeringEstimate → Metered → DirectSensor. -/
def sourceRank : SourceInput → ℕ
  | .engineeringEstimates => 0
  | .metered => 1
  | .directSensor => 2

/-- Ordering index on manual verification categories:
Unverified → Limited → Reasonable. -/
def auditRank : AuditInput → ℕ
  | .unverified => 0
  | .limited => 1
  | .reasonable => 2

lemma clamp_mono {x y : ℚ} (h : x ≤ y) :
    min (max x 0) 100 ≤ min (max y 0) 100 :=
  min_le_min (max_le_max h le_rfl) le_rfl

lemma score_source_mono {s₁ s₂ : SourceInput} (h : sourceRank s₁ ≤ sourceRank s₂) :
    score_source s₁ ≤ score_source s₂ := by
  cases s₁ <;> cases s₂ <;> simp_all [sourceRank, score_source] <;> norm_num

lemma score_audit_mono {a₁ a₂ : AuditInput} (h : auditRank a₁ ≤ auditRank a₂) :
    score_audit a₁ ≤ score_audit a₂ := by
  cases a₁ <;> cases a₂ <;> simp_all [auditRank, score_audit] <;> norm_num

lemma detect_audit_scr (t : String) :
    (detect_audit t).2 = 30 ∨ (detect_audit t).2 = 15 ∨ (detect_audit t).2 = -20 := by
  unfold detect_audit
  split_ifs <;> simp

lemma detect_source_scr (t : String) :
    (detect_source t).2 = 40 ∨ (detect_source t).2 = -10 ∨ (detect_source t).2 = 10 := by
  unfold detect_source
  split_ifs <;> simp

/-- C1 counterexample: the code's rating mapper is the shared 4-band
table, not the claimed 6-band one.  The manual input (Metered,
Reasonable Assurance, frequency 0) scores exactly 80, which the code
rates AAA/$18.50 while the claim says 90>score≥80 yields AA/$14.20;
likewise score 89.999 rates AAA (claim: AA), and score 29 rates D at
price $2.50 (claim: $1.50). -/
theorem C1_counterexample :
    manual_fidelity .metered .reasonable 0 = 80 ∧
    (rating 80).grade = RatingGrade.AAA ∧ (rating 80).price = 18.50 ∧
    RatingGrade.AAA ≠ RatingGrade.AA ∧ (18.50 : ℚ) ≠ 14.20 ∧
    (rating (89999 / 1000 : ℚ)).grade = RatingGrade.AAA ∧
    (rating 29).grade = RatingGrade.D ∧ (rating 29).price = 2.50 ∧
    (2.50 : ℚ) ≠ 1.50 := by
  refine ⟨?_, ?_, ?_, by decide, ?_, ?_, ?_, ?_, ?_⟩ <;>
    norm_num [manual_fidelity, fidelity_score, score_audit, score_source,
      score_freq_manual, base_score, rating, min_def, max_def]

/-- C1 (amended): the rating mapper — shared by both modes — uses the
4-band threshold table scanned in descending order, first threshold met
or exceeded wins: score≥80 yields AAA/$18.50, 80>score≥60 yields
A/$14.20, 60>score≥40 yields BBB/$9.00, and score<40 yields D/$2.50. -/
theorem C1_rating_table (fs : ℚ) :
    (80 ≤ fs → rating fs = ⟨.AAA, "#00d4ff", 18.50⟩) ∧
    (60 ≤ fs → fs < 80 → rating fs = ⟨.A, "#2ecc71", 14.20⟩) ∧
    (40 ≤ fs → fs < 60 → rating fs = ⟨.BBB, "#f1c40f", 9.00⟩) ∧
    (fs < 40 → rating fs = ⟨.D, "#c0392b", 2.50⟩) := by
  unfold rating
  split_ifs with h1 h2 h3 <;>
    refine ⟨fun ha => ?_, fun hb hb2 => ?_, fun hc hc2 => ?_, fun hd => ?_⟩ <;>
    first
      | rfl
      | (exfalso; linarith)

/-- Witness for C1: the table evaluated at scores 90 and 50. -/
theorem C1_rating_table_witness :
    rating 90 = ⟨.AAA, "#00d4ff", 18.50⟩ ∧ rating 50 = ⟨.BBB, "#f1c40f", 9.00⟩ :=
  ⟨(C1_rating_table 90).1 (by norm_num),
   (C1_rating_table 50).2.2.1 (by norm_num) (by norm_num)⟩

/-- C2 counterexample: the low-fidelity manual input (Engineering
Estimates, Unverified, frequency 0) scores 10, not the claimed 15
(the code uses base 40 and source contribution −10, not base 50 and
−15), and its price is $2.50, not the claimed $1.50. -/
theorem C2_counterexample :
    manual_fidelity .engineeringEstimates .unverified 0 = 10 ∧ (10 : ℚ) ≠ 15 ∧
    (rating (manual_fidelity .engineeringEstimates .unverified 0)).price = 2.50 ∧
    (2.50 : ℚ) ≠ 1.50 := by
  refine ⟨?_, ?_, ?_, ?_⟩ <;>
    norm_num [manual_fidelity, fidelity_score, score_audit, score_source,
      score_freq_manual, base_score, rating, min_def, max_def]

/-- C2 (amended): in manual mode the triple (Engineering Estimates,
Unverified, frequency 0) produces the raw sum 40−10−20+0 = 10, hence
fidelity score 10, and the rating mapper returns grade D with price
$2.50. -/
theorem C2_low_fidelity_scenario :
    base_score + score_audit .unverified + score_source .engineeringEstimates +
      score_freq_manual 0 = 10 ∧
    manual_fidelity .engineeringEstimates .unverified 0 = 10 ∧
    rating (manual_fidelity .engineeringEstimates .unverified 0) =
      ⟨.D, "#c0392b", 2.50⟩ := by
  refine ⟨?_, ?_, ?_⟩ <;>
    norm_num [manual_fidelity, fidelity_score, score_audit, score_source,
      score_freq_manual, base_score, rating, min_def, max_def]

/-- C3: the score is the clamp of `BASE + source contribution +
verification contribution + frequency contribution`; the base constant
(40, satisfying the 40-or-50 disjunct) is the same line of code in both
modes; the frequency contribution is `frequency / 5` in manual mode and
the fixed constant 5 in document-derived mode. -/
theorem C3_score_formula :
    (base_score = 40 ∨ base_score = 50) ∧
    (∀ src aud freq, manual_fidelity src aud freq =
        min (max (base_score + score_audit aud + score_source src + (freq : ℚ) / 5) 0) 100) ∧
    (∀ t, doc_fidelity t =
        min (max (base_score + (analyze_epd t).a_scr + (analyze_epd t).s_scr + 5) 0) 100) :=
  ⟨Or.inl rfl, fun _ _ _ => rfl, fun _ => rfl⟩

/-- C4: any document text containing both "third party verified" and
"site-specific" extracts verification contribution +30 and source
contribution +40; with base 40 and fixed frequency contribution 5 the
raw sum is 115, clamped to 100, rated AAA with price $18.50 by the
4-band table. -/
theorem C4_doc_aaa_scenario (t : String)
    (h1 : containsSubstr t "third party verified" = true)
    (h2 : containsSubstr t "site-specific" = true) :
    (analyze_epd t).a_scr = 30 ∧ (analyze_epd t).s_scr = 40 ∧
    base_score + 30 + 40 + score_freq_doc = 115 ∧
    doc_fidelity t = 100 ∧
    rating (doc_fidelity t) = ⟨.AAA, "#00d4ff", 18.50⟩ := by
  have ha : (analyze_epd t).a_scr = 30 := by
    simp [analyze_epd, detect_audit, h1]
  have hs : (analyze_epd t).s_scr = 40 := by
    simp [analyze_epd, detect_source, h2]
  have hd : doc_fidelity t = 100 := by
    rw [doc_fidelity, ha, hs]
    norm_num [fidelity_score, base_score, score_freq_doc, min_def, max_def]
  refine ⟨ha, hs, ?_, hd, ?_⟩
  · norm_num [base_score, score_freq_doc]
  · rw [hd]
    norm_num [rating]

/-- Witness for C4: the concrete text
"third party verified site-specific". -/
theorem C4_doc_aaa_scenario_witness :
    (analyze_epd "third party verified site-specific").a_scr = 30 ∧
    (analyze_epd "third party verified site-specific").s_scr = 40 ∧
    base_score + 30 + 40 + score_freq_doc = 115 ∧
    doc_fidelity "third party verified site-specific" = 100 ∧
    rating (doc_fidelity "third party verified site-specific") =
      ⟨.AAA, "#00d4ff", 18.50⟩ :=
  C4_doc_aaa_scenario "third party verified site-specific" (by decide) (by decide)

/-- C5: for every valid input triple in either mode the fidelity score
lies in `[0, 100]`; the raw additive sum is clamped so that values
below 0 become 0, values above 100 become 100, and in-range values pass
through unchanged. -/
theorem C5_score_bounds :
    (∀ src aud (freq : ℕ), freq ≤ 100 →
        0 ≤ manual_fidelity src aud freq ∧ manual_fidelity src aud freq ≤ 100) ∧
    (∀ t, 0 ≤ doc_fidelity t ∧ doc_fidelity t ≤ 100) ∧
    (∀ a s f : ℚ,
        (base_score + a + s + f < 0 → fidelity_score a s f = 0) ∧
        (100 < base_score + a + s + f → fidelity_score a s f = 100) ∧
        (0 ≤ base_score + a + s + f → base_score + a + s + f ≤ 100 →
          fidelity_score a s f = base_score + a + s + f)) := by
  refine ⟨fun src aud freq _ => ?_, fun t => ?_, fun a s f => ⟨fun h => ?_, fun h => ?_, fun h1 h2 => ?_⟩⟩
  · exact ⟨le_min (le_max_right _ 0) (by norm_num), min_le_right _ _⟩
  · exact ⟨le_min (le_max_right _ 0) (by norm_num), min_le_right _ _⟩
  · rw [fidelity_score, max_eq_right h.le]
    exact min_eq_left (by norm_num)
  · rw [fidelity_score, max_eq_left (le_trans (by norm_num) h.le)]
    exact min_eq_right h.le
  · rw [fidelity_score, max_eq_left h1]
    exact min_eq_left h2

/-- Witness for C5: bounds at (Direct Sensor, Reasonable, frequency 100)
and upper clamping of the raw sum 40+30+40+20 = 130. -/
theorem C5_score_bounds_witness :
    (0 ≤ manual_fidelity .directSensor .reasonable 100 ∧
      manual_fidelity .directSensor .reasonable 100 ≤ 100) ∧
    fidelity_score 30 40 20 = 100 :=
  ⟨C5_score_bounds.1 .directSensor .reasonable 100 (by norm_num),
   (C5_score_bounds.2.2 30 40 20).2.1 (by norm_num [base_score])⟩

/-- C6: the clamped manual-mode score is monotone in each dimension with
the others held fixed: source upgraded along
EngineeringEstimate→Metered→DirectSensor, verification along
Unverified→Limited→Reasonable, and frequency increasing. -/
theorem C6_monotonicity :
    (∀ s₁ s₂ aud (freq : ℕ), sourceRank s₁ ≤ sourceRank s₂ →
        manual_fidelity s₁ aud freq ≤ manual_fidelity s₂ aud freq) ∧
    (∀ src a₁ a₂ (freq : ℕ), auditRank a₁ ≤ auditRank a₂ →
        manual_fidelity src a₁ freq ≤ manual_fidelity src a₂ freq) ∧
    (∀ src aud (f₁ f₂ : ℕ), f₁ ≤ f₂ →
        manual_fidelity src aud f₁ ≤ manual_fidelity src aud f₂) := by
  refine ⟨fun s₁ s₂ aud freq h => ?_, fun src a₁ a₂ freq h => ?_, fun src aud f₁ f₂ h => ?_⟩
  · have hs := score_source_mono h
    exact clamp_mono (by linarith)
  · have ha := score_audit_mono h
    exact clamp_mono (by linarith)
  · have hf : score_freq_manual f₁ ≤ score_freq_manual f₂ := by
      unfold score_freq_manual
      have : (f₁ : ℚ) ≤ (f₂ : ℚ) := by exact_mod_cast h
      linarith
    exact clamp_mono (by linarith)

/-- Witness for C6: each monotonicity conjunct at a concrete upgrade. -/
theorem C6_monotonicity_witness :
    manual_fidelity .engineeringEstimates .limited 20 ≤
      manual_fidelity .directSensor .limited 20 ∧
    manual_fidelity .metered .unverified 20 ≤
      manual_fidelity .metered .reasonable 20 ∧
    manual_fidelity .metered .limited 0 ≤ manual_fidelity .metered .limited 100 :=
  ⟨C6_monotonicity.1 .engineeringEstimates .directSensor .limited 20 (by decide),
   C6_monotonicity.2.1 .metered .unverified .reasonable 20 (by decide),
   C6_monotonicity.2.2 .metered .limited 0 100 (by decide)⟩

/-- C7 counterexample: the code checks neither "facility specific" nor
"generic"; both texts fall through to the Hybrid/Mixed default (+10)
rather than yielding DirectFacility (+40) or IndustryAverage (−10) as
the claim's parenthetical keywords state. -/
theorem C7_counterexample :
    (analyze_epd "facility specific").s_scr = 10 ∧ (10 : ℚ) ≠ 40 ∧
    (analyze_epd "facility specific").s_lbl = "B. Hybrid / Mixed Data" ∧
    (analyze_epd "generic").s_scr = 10 ∧ (10 : ℚ) ≠ -10 := by
  refine ⟨by decide, by norm_num, by decide, by decide, by norm_num⟩

/-- C7 (amended): the extractor applies ordered first-match-wins
substring rules per dimension: verification — "third party verified" or
"external verification" yields ThirdPartyVerified (+30), otherwise
"iso 14040" or "iso 14044" yields SelfDeclared (+15), otherwise
Unverified (−20); source — "primary data" or "site-specific" yields
DirectFacility (+40), otherwise "secondary data" or "database" yields
IndustryAverage (−10), otherwise HybridMixed (+10); any text matching
no keyword (including empty text) yields the asymmetric defaults
Unverified and HybridMixed. -/
theorem C7_extractor_rules (t : String) :
    ((containsSubstr t "third party verified" ||
        containsSubstr t "external verification") = true →
      (analyze_epd t).a_scr = 30 ∧
        (analyze_epd t).a_lbl = "L3: Third-Party Verified (ISO 14025)") ∧
    ((containsSubstr t "third party verified" ||
        containsSubstr t "external verification") = false →
      (containsSubstr t "iso 14040" || containsSubstr t "iso 14044") = true →
      (analyze_epd t).a_scr = 15 ∧
        (analyze_epd t).a_lbl = "L2: Self-Declared (ISO Compliant)") ∧
    ((containsSubstr t "third party verified" ||
        containsSubstr t "external verification") = false →
      (containsSubstr t "iso 14040" || containsSubstr t "iso 14044") = false →
      (analyze_epd t).a_scr = -20 ∧
        (analyze_epd t).a_lbl = "L1: Unverified / Internal Estimate") ∧
    ((containsSubstr t "primary data" || containsSubstr t "site-specific") = true →
      (analyze_epd t).s_scr = 40 ∧
        (analyze_epd t).s_lbl = "A. Direct Facility Data (Primary)") ∧
    ((containsSubstr t "primary data" || containsSubstr t "site-specific") = false →
      (containsSubstr t "secondary data" || containsSubstr t "database") = true →
      (analyze_epd t).s_scr = -10 ∧
        (analyze_epd t).s_lbl = "C. Industry Average (Secondary)") ∧
    ((containsSubstr t "primary data" || containsSubstr t "site-specific") = false →
      (containsSubstr t "secondary data" || containsSubstr t "database") = false →
      (analyze_epd t).s_scr = 10 ∧
        (analyze_epd t).s_lbl = "B. Hybrid / Mixed Data") := by
  refine ⟨fun h1 => ?_, fun h1 h2 => ?_, fun h1 h2 => ?_,
          fun h3 => ?_, fun h3 h4 => ?_, fun h3 h4 => ?_⟩ <;>
    simp_all [analyze_epd, detect_audit, detect_source]

/-- Witness for C7: the empty text falls through every rule to the
asymmetric defaults Unverified (−20) and HybridMixed (+10). -/
theorem C7_extractor_rules_witness :
    ((analyze_epd "").a_scr = -20 ∧
      (analyze_epd "").a_lbl = "L1: Unverified / Internal Estimate") ∧
    ((analyze_epd "").s_scr = 10 ∧
      (analyze_epd "").s_lbl = "B. Hybrid / Mixed Data") :=
  ⟨(C7_extractor_rules "").2.2.1 (by decide) (by decide),
   (C7_extractor_rules "").2.2.2.2.2 (by decide) (by decide)⟩

/-- C8: in both modes the unclamped sum is at least 10 (manual minimum
40−20−10+0 = 10, document minimum 40−20−10+5 = 15), so the lower clamp
to 0 never changes the result and the returned score is always ≥ 10. -/
theorem C8_lower_bound :
    (∀ src aud (freq : ℕ), freq ≤ 100 →
        10 ≤ base_score + score_audit aud + score_source src + score_freq_manual freq ∧
        max (base_score + score_audit aud + score_source src + score_freq_manual freq) 0 =
          base_score + score_audit aud + score_source src + score_freq_manual freq ∧
        10 ≤ manual_fidelity src aud freq) ∧
    (∀ t, 10 ≤ base_score + (analyze_epd t).a_scr + (analyze_epd t).s_scr + score_freq_doc ∧
        max (base_score + (analyze_epd t).a_scr + (analyze_epd t).s_scr + score_freq_doc) 0 =
          base_score + (analyze_epd t).a_scr + (analyze_epd t).s_scr + score_freq_doc ∧
        10 ≤ doc_fidelity t) := by
  have key : ∀ src aud (freq : ℕ),
      10 ≤ base_score + score_audit aud + score_source src + score_freq_manual freq := by
    intro src aud freq
    have hf : (0 : ℚ) ≤ score_freq_manual freq := by
      unfold score_freq_manual
      positivity
    cases src <;> cases aud <;>
      (norm_num [base_score, score_audit, score_source]; linarith)
  have keyd : ∀ t,
      10 ≤ base_score + (analyze_epd t).a_scr + (analyze_epd t).s_scr + score_freq_doc := by
    intro t
    have ha := detect_audit_scr t
    have hs := detect_source_scr t
    have ea : (analyze_epd t).a_scr = (detect_audit t).2 := rfl
    have es : (analyze_epd t).s_scr = (detect_source t).2 := rfl
    rw [ea, es]
    rcases ha with h | h | h <;> rcases hs with h2 | h2 | h2 <;>
      rw [h, h2] <;> norm_num [base_score, score_freq_doc]
  refine ⟨fun src aud freq _ => ?_, fun t => ?_⟩
  · have h10 := key src aud freq
    refine ⟨h10, max_eq_left (by linarith), ?_⟩
    exact le_min (le_trans h10 (le_max_left _ _)) (by norm_num)
  · have h10 := keyd t
    refine ⟨h10, max_eq_left (by linarith), ?_⟩
    exact le_min (le_trans h10 (le_max_left _ _)) (by norm_num)

/-- Witness for C8: the manual minimum-scoring input and the empty
document both stay at or above 10. -/
theorem C8_lower_bound_witness :
    10 ≤ manual_fidelity .engineeringEstimates .unverified 0 ∧
    10 ≤ doc_fidelity "" :=
  ⟨(C8_lower_bound.1 .engineeringEstimates .unverified 0 (by norm_num)).2.2,
   (C8_lower_bound.2 "").2.2⟩

/-- C9: both input modes run through the single shared pipeline — the
same base constant 40 and the same 4-band table — as functions of the
(verification, source, frequency) contribution triple; consequently the
rating grade is always one of AAA, A, BBB, D, and AA and BB are never
produced. -/
theorem C9_single_pipeline :
    (∀ src aud (freq : ℕ), manual_fidelity src aud freq =
        fidelity_score (score_audit aud) (score_source src) (score_freq_manual freq)) ∧
    (∀ t, doc_fidelity t =
        fidelity_score (analyze_epd t).a_scr (analyze_epd t).s_scr score_freq_doc) ∧
    base_score = 40 ∧
    (∀ fs : ℚ, (rating fs).grade ≠ RatingGrade.AA ∧ (rating fs).grade ≠ RatingGrade.BB) ∧
    (∀ fs : ℚ, (rating fs).grade = RatingGrade.AAA ∨ (rating fs).grade = RatingGrade.A ∨
        (rating fs).grade = RatingGrade.BBB ∨ (rating fs).grade = RatingGrade.D) := by
  refine ⟨fun _ _ _ => rfl, fun _ => rfl, rfl, fun fs => ?_, fun fs => ?_⟩
  · unfold rating
    split_ifs <;> simp
  · unfold rating
    split_ifs <;> simp

/-- C10: in document-derived mode the fidelity score takes exactly one
of the seven values {15, 35, 50, 65, 70, 85, 100} — determined by the
3×3 grid of verification contributions {30, 15, −20} and source
contributions {40, 10, −10} over base 40 and fixed frequency
contribution 5 — and every grade of the 4-band table is reachable from
some document text. -/
theorem C10_doc_score_grid :
    (∀ t, doc_fidelity t = 15 ∨ doc_fidelity t = 35 ∨ doc_fidelity t = 50 ∨
        doc_fidelity t = 65 ∨ doc_fidelity t = 70 ∨ doc_fidelity t = 85 ∨
        doc_fidelity t = 100) ∧
    (rating (doc_fidelity "third party verified site-specific")).grade = RatingGrade.AAA ∧
    (rating (doc_fidelity "third party verified database")).grade = RatingGrade.A ∧
    (rating (doc_fidelity "iso 14040 database")).grade = RatingGrade.BBB ∧
    (rating (doc_fidelity "")).grade = RatingGrade.D := by
  have grid : ∀ t, doc_fidelity t =
      min (max (base_score + (detect_audit t).2 + (detect_source t).2 + score_freq_doc) 0)
        100 := fun _ => rfl
  refine ⟨fun t => ?_, ?_, ?_, ?_, ?_⟩
  · rw [grid t]
    rcases detect_audit_scr t with h | h | h <;>
      rcases detect_source_scr t with h2 | h2 | h2 <;>
      rw [h, h2] <;>
      norm_num [base_score, score_freq_doc, min_def, max_def]
  · have h : analyze_epd "third party verified site-specific" =
        ⟨"General Construction", "L3: Third-Party Verified (ISO 14025)", 30,
         "A. Direct Facility Data (Primary)", 40⟩ := by decide
    rw [doc_fidelity, h]
    norm_num [fidelity_score, base_score, score_freq_doc, rating, min_def, max_def]
  · have h : analyze_epd "third party verified database" =
        ⟨"General Construction", "L3: Third-Party Verified (ISO 14025)", 30,
         "C. Industry Average (Secondary)", -10⟩ := by decide
    rw [doc_fidelity, h]
    norm_num [fidelity_score, base_score, score_freq_doc, rating, min_def, max_def]
  · have h : analyze_epd "iso 14040 database" =
        ⟨"General Construction", "L2: Self-Declared (ISO Compliant)", 15,
         "C. Industry Average (Secondary)", -10⟩ := by decide
    rw [doc_fidelity, h]
    norm_num [fidelity_score, base_score, score_freq_doc, rating, min_def, max_def]
  · have h : analyze_epd "" =
        ⟨"General Construction", "L1: Unverified / Internal Estimate", -20,
         "B. Hybrid / Mixed Data", 10⟩ := by decide
    rw [doc_fidelity, h]
    norm_num [fidelity_score, base_score, score_freq_doc, rating, min_def, max_def]

end Dexdogs
